import Mathlib

/-!
Verification of the YouTube trending-finder repository
(`youtube_trending_finder.py`, `config.py`).

Shallow embedding conventions:
* timestamps (`published_at`, `now`) are rational numbers of seconds since
  the epoch (UTC); `datetime.fromisoformat` / `datetime.now` are abstracted
  to these values, and the subtraction `(now - published_at).total_seconds()`
  becomes plain rational subtraction;
* Python float arithmetic is modelled by exact rational arithmetic `ℚ`;
* Python `int` fields (`view_count`, `like_count`) are modelled by `ℤ`;
* the two remote calls made by `search_videos` are modelled by oracle
  arguments: the value of the search response and a function from the
  extracted id list to the detail response; a raised `HttpError` or other
  exception is the `err` constructor of `QueryResult`;
* the regular expression `PT(?:(\d+)H)?(?:(\d+)M)?(?:(\d+)S)?` used with
  `re.match` is modelled by an explicit parser (`\d` is modelled as an
  ASCII digit).
-/

/-- The configured trending window, `config.TRENDING_PERIOD_DAYS = 14`. -/
def TRENDING_PERIOD_DAYS : ℚ := 14

/-- The default result-count cap, `config.DEFAULT_MAX_RESULTS = 50`. -/
def DEFAULT_MAX_RESULTS : ℕ := 50

/-- One video record as assembled by `search_videos` (the `video_info`
dictionary): identifier, display strings, publication timestamp (seconds
since epoch, UTC), view/like counts, raw duration string, and derived URL. -/
structure Video where
  video_id : String
  title : String
  channel_title : String
  published_at : ℚ
  view_count : ℤ
  like_count : ℤ
  duration : String
  url : String
deriving DecidableEq

/-- Age of a video in fractional days:
`days_since_published = (now - published_at).total_seconds() / 86400`. -/
def days_since_published (now : ℚ) (video : Video) : ℚ :=
  (now - video.published_at) / 86400

/-- The method `YouTubeTrendingFinder.calculate_trending_score`: returns 0 when the video
is from the future or older than the trending window; otherwise divides the
view count by the age in days (floored at 1 day) and multiplies by
`1 + view_count / 10000`. -/
def calculate_trending_score (now : ℚ) (video : Video) : ℚ :=
  let d0 := days_since_published now video
  if d0 < 0 then 0
  else if d0 > TRENDING_PERIOD_DAYS then 0
  else
    let view_count : ℚ := (video.view_count : ℚ)
    let d := if d0 < 1 then (1 : ℚ) else d0
    let views_per_day := view_count / d
    views_per_day * (1 + view_count / 10000)

/-- A video record after `find_trending_videos` has attached the
`trending_score` key; the underlying record is carried unchanged. -/
structure ScoredVideo where
  video : Video
  trending_score : ℚ
deriving DecidableEq

/-- Ranking part of `find_trending_videos`: attach a score to every record of
`videos`, keep those with score ≥ `min_trending_score`, and sort in
descending score order (Python `sorted(..., reverse=True)` is a stable
descending sort, modelled by `List.insertionSort` on the reversed order). -/
def find_trending_videos (now : ℚ) (videos : List Video)
    (min_trending_score : ℚ) : List ScoredVideo :=
  let scored := videos.map (fun v => ⟨v, calculate_trending_score now v⟩)
  List.insertionSort (fun a b => b.trending_score ≤ a.trending_score)
    (scored.filter (fun v => decide (min_trending_score ≤ v.trending_score)))

/-- Outcome of one remote call: a value, or a raised error
(`HttpError` or any other exception), carrying its message. -/
inductive QueryResult (α : Type) where
  | ok : α → QueryResult α
  | err : String → QueryResult α
deriving DecidableEq

/-- One item of the batch-details response: `id`, snippet fields,
statistics (absent `viewCount` / `likeCount` are `none`), and
`contentDetails.duration`. -/
structure ApiVideoItem where
  id : String
  title : String
  channelTitle : String
  publishedAt : ℚ
  viewCount : Option ℤ
  likeCount : Option ℤ
  duration : String
deriving DecidableEq

/-- The `video_info` dictionary built for one detail item: missing
statistics default to 0 and the URL is derived from the id. -/
def mk_video_info (v : ApiVideoItem) : Video :=
  { video_id := v.id
    title := v.title
    channel_title := v.channelTitle
    published_at := v.publishedAt
    view_count := v.viewCount.getD 0
    like_count := v.likeCount.getD 0
    duration := v.duration
    url := "https://www.youtube.com/watch?v=" ++ v.id }

/-- The method `search_videos` with its control flow made explicit. The first component
is the returned list; the second records whether the second (batch detail)
remote call was issued. An `err` outcome of either call is caught by the
`except` handlers and converted to the empty list. -/
def search_videos_run (search_response : QueryResult (List String))
    (videos_response : List String → QueryResult (List ApiVideoItem)) :
    List Video × Bool :=
  match search_response with
  | QueryResult.err _ => ([], false)
  | QueryResult.ok video_ids =>
    if video_ids.isEmpty then ([], false)
    else
      match videos_response video_ids with
      | QueryResult.err _ => ([], true)
      | QueryResult.ok items => (items.map mk_video_info, true)

/-- The method `YouTubeTrendingFinder.search_videos`: the list it returns. -/
def search_videos (search_response : QueryResult (List String))
    (videos_response : List String → QueryResult (List ApiVideoItem)) :
    List Video :=
  (search_videos_run search_response videos_response).1

/-- The method `YouTubeTrendingFinder.find_trending_videos` end to end: fetch the
records via `search_videos`, then score, filter and sort them. -/
def find_trending_videos_full (now : ℚ)
    (search_response : QueryResult (List String))
    (videos_response : List String → QueryResult (List ApiVideoItem))
    (min_trending_score : ℚ) : List ScoredVideo :=
  find_trending_videos now (search_videos search_response videos_response)
    min_trending_score

/-- Numeric value of the digit characters captured by a regex group, most
significant first, as Python `int` reads them. -/
def digitsToNat (ds : List Char) : ℕ :=
  ds.foldl (fun acc c => 10 * acc + (c.toNat - 48)) 0

/-- One optional group `(?:(\d+)X)?` of the duration regex, matched greedily
at the head of `cs`: a maximal non-empty run of digits immediately followed
by the letter `x` captures its value and consumes through the letter;
otherwise the group captures nothing and consumes no input (the regex
backtracks to the empty alternative). -/
def matchNumGroup (x : Char) (cs : List Char) : Option ℕ × List Char :=
  match cs.dropWhile Char.isDigit with
  | c :: rest =>
    if cs.takeWhile Char.isDigit ≠ [] ∧ c = x then
      (some (digitsToNat (cs.takeWhile Char.isDigit)), rest)
    else (none, cs)
  | [] => (none, cs)

/-- The match `re.match(r'PT(?:(\d+)H)?(?:(\d+)M)?(?:(\d+)S)?', s)`: fails exactly
when `s` does not start with `PT`; otherwise returns the three captured
groups (a group that did not participate is `none`). -/
def re_match_duration (s : String) : Option (Option ℕ × Option ℕ × Option ℕ) :=
  match s.toList with
  | 'P' :: 'T' :: rest =>
    let (h, rest1) := matchNumGroup 'H' rest
    let (m, rest2) := matchNumGroup 'M' rest1
    let (sec, _) := matchNumGroup 'S' rest2
    some (h, m, sec)
  | _ => none

/-- The helper `format_duration`: renders the parsed hours/minutes/seconds, omitting
zero components, with the all-zero marker; a string the regex does not
match is returned unchanged. -/
def format_duration (duration_str : String) : String :=
  match re_match_duration duration_str with
  | none => duration_str
  | some (h, m, s) =>
    let hours := h.getD 0
    let minutes := m.getD 0
    let seconds := s.getD 0
    let parts : List String :=
      (if hours > 0 then [Nat.repr hours ++ "時間"] else []) ++
      (if minutes > 0 then [Nat.repr minutes ++ "分"] else []) ++
      (if seconds > 0 then [Nat.repr seconds ++ "秒"] else [])
    if parts.isEmpty then "0秒" else String.join parts

/-- The decimal digit characters of `n`, most significant first: the list
underlying `Nat.repr n`. -/
def natDigitList (n : ℕ) : List Char :=
  if h : n / 10 = 0 then [Nat.digitChar (n % 10)]
  else natDigitList (n / 10) ++ [Nat.digitChar (n % 10)]
decreasing_by exact Nat.div_lt_self (by omega) (by omega)

/-- A canonical duration string `PT<h>H<m>M<s>S`. -/
def mk_duration_str (h m s : ℕ) : String :=
  "PT" ++ Nat.repr h ++ "H" ++ Nat.repr m ++ "M" ++ Nat.repr s ++ "S"

/-- Sample video: 100 views, published at the epoch. -/
def vidC1 : Video :=
  { video_id := "a", title := "t", channel_title := "c", published_at := 0
    view_count := 100, like_count := 0, duration := "PT1M"
    url := "https://www.youtube.com/watch?v=a" }

/-- Sample video published one day after "now = 0" (age −1 day). -/
def vidC2 : Video :=
  { video_id := "b", title := "t", channel_title := "c", published_at := 86400
    view_count := 5000000, like_count := 0, duration := "PT1M"
    url := "https://www.youtube.com/watch?v=b" }

/-- Sample video for the ranking witness: 20000 views at age 0.5 days
relative to "now = 43200", hence score 60000. -/
def vidC3 : Video :=
  { video_id := "f", title := "t", channel_title := "c", published_at := 0
    view_count := 20000, like_count := 3, duration := "PT2M"
    url := "https://www.youtube.com/watch?v=f" }

/-- Sample video aged −0.5 days relative to "now = 0" (published 43200
seconds in the future). -/
def vidC4 : Video :=
  { video_id := "d", title := "t", channel_title := "c", published_at := 43200
    view_count := 20000, like_count := 0, duration := "PT1M"
    url := "https://www.youtube.com/watch?v=d" }

/-- Sample video: 20000 views, age 0.5 days relative to "now = 43200". -/
def vidC8 : Video :=
  { video_id := "e", title := "t", channel_title := "c", published_at := 0
    view_count := 20000, like_count := 0, duration := "PT1M"
    url := "https://www.youtube.com/watch?v=e" }

/-- Detail-response item for the C10 witness. -/
def itemC10 : ApiVideoItem :=
  { id := "w", title := "tw", channelTitle := "cw", publishedAt := 0
    viewCount := some 20000, likeCount := some 7, duration := "PT2M" }

/-- The clamped divisor `max d 1` written the way the source writes it. -/
theorem clamped_days_eq_max (d : ℚ) : (if d < 1 then (1 : ℚ) else d) = max d 1 := by
  rcases lt_or_le d 1 with h | h
  · simp [h, max_eq_right h.le]
  · simp [not_lt.mpr h, max_eq_left h]

theorem toDigitsCore_eq_natDigitList (fuel n : ℕ) (acc : List Char)
    (hfuel : n < fuel) :
    Nat.toDigitsCore 10 fuel n acc = natDigitList n ++ acc := by
  induction fuel generalizing n acc with
  | zero => omega
  | succ fuel ih =>
    rw [Nat.toDigitsCore, natDigitList]
    by_cases h : n / 10 = 0
    · simp [h]
    · rw [dif_neg h, if_neg h, ih (n / 10) _ (by omega)]
      simp [List.append_assoc]

/-- The rendering `Nat.repr` produces exactly the digit list `natDigitList`. -/
theorem repr_data (n : ℕ) : (Nat.repr n).data = natDigitList n := by
  show ((Nat.toDigitsCore 10 (n + 1) n []).asString).data = natDigitList n
  rw [toDigitsCore_eq_natDigitList (n + 1) n [] (by omega)]
  simp [List.asString]

theorem digitChar_isDigit (m : ℕ) (h : m < 10) :
    (Nat.digitChar m).isDigit = true := by
  interval_cases m <;> decide

theorem digitChar_toNat (m : ℕ) (h : m < 10) :
    (Nat.digitChar m).toNat - 48 = m := by
  interval_cases m <;> decide

theorem natDigitList_digits (n : ℕ) :
    ∀ c ∈ natDigitList n, c.isDigit = true := by
  induction n using Nat.strong_induction_on with
  | _ n ih =>
    rw [natDigitList]
    by_cases h : n / 10 = 0
    · simp only [dif_pos h, List.mem_singleton]
      rintro c rfl
      exact digitChar_isDigit _ (by omega)
    · simp only [dif_neg h, List.mem_append, List.mem_singleton]
      rintro c (hc | rfl)
      · exact ih (n / 10) (Nat.div_lt_self (by omega) (by omega)) c hc
      · exact digitChar_isDigit _ (by omega)

theorem natDigitList_ne_nil (n : ℕ) : natDigitList n ≠ [] := by
  rw [natDigitList]
  by_cases h : n / 10 = 0
  · simp [h]
  · simp [h]

theorem foldl_natDigitList (n : ℕ) : ∀ acc : ℕ,
    (natDigitList n).foldl (fun a c => 10 * a + (c.toNat - 48)) acc =
      acc * 10 ^ (natDigitList n).length + n := by
  induction n using Nat.strong_induction_on with
  | _ n ih =>
    intro acc
    rw [natDigitList]
    by_cases h : n / 10 = 0
    · simp only [dif_pos h, List.foldl_cons, List.foldl_nil, List.length_singleton]
      rw [digitChar_toNat _ (by omega)]
      omega
    · simp only [dif_neg h, List.foldl_append, List.length_append,
        List.foldl_cons, List.foldl_nil, List.length_singleton]
      rw [ih (n / 10) (Nat.div_lt_self (by omega) (by omega)) acc,
        digitChar_toNat _ (by omega), pow_succ]
      have hdm : 10 * (n / 10) + n % 10 = n := Nat.div_add_mod n 10
      have hpow : acc * 10 ^ (natDigitList (n / 10)).length * 10 =
          acc * (10 ^ (natDigitList (n / 10)).length * 10) := by ring
      omega

/-- Reading back the digit characters of `n` yields `n`. -/
theorem digitsToNat_natDigitList (n : ℕ) :
    digitsToNat (natDigitList n) = n := by
  rw [digitsToNat, foldl_natDigitList n 0]
  simp

theorem takeWhile_dropWhile_append {p : Char → Bool} (l1 : List Char)
    (c : Char) (l2 : List Char)
    (h1 : ∀ x ∈ l1, p x = true) (hc : p c = false) :
    (l1 ++ c :: l2).takeWhile p = l1 ∧ (l1 ++ c :: l2).dropWhile p = c :: l2 := by
  induction l1 with
  | nil => simp [List.takeWhile_cons, List.dropWhile_cons, hc]
  | cons a l ih =>
    have ha : p a = true := h1 a (by simp)
    have h := ih (fun x hx => h1 x (by simp [hx]))
    simp [List.takeWhile_cons, List.dropWhile_cons, ha, h.1, h.2]

/-- A well-formed group `digits-of-n` followed by its letter parses to `n`
and consumes through the letter. -/
theorem matchNumGroup_digits (x : Char) (hx : x.isDigit = false)
    (n : ℕ) (rest : List Char) :
    matchNumGroup x (natDigitList n ++ x :: rest) = (some n, rest) := by
  obtain ⟨ht, hd⟩ :=
    takeWhile_dropWhile_append (natDigitList n) x rest (natDigitList_digits n) hx
  unfold matchNumGroup
  rw [hd, ht]
  simp [natDigitList_ne_nil n, digitsToNat_natDigitList n]

theorem mk_duration_str_data (h m s : ℕ) :
    (mk_duration_str h m s).data =
      'P' :: 'T' :: (natDigitList h ++ 'H' ::
        (natDigitList m ++ 'M' :: (natDigitList s ++ 'S' :: []))) := by
  show ("PT" ++ Nat.repr h ++ "H" ++ Nat.repr m ++ "M" ++ Nat.repr s ++ "S").data = _
  simp only [String.data_append, repr_data]
  show ['P', 'T'] ++ natDigitList h ++ ['H'] ++ natDigitList m ++ ['M'] ++
      natDigitList s ++ ['S'] = _
  simp [List.append_assoc]

theorem re_match_duration_mk (h m s : ℕ) :
    re_match_duration (mk_duration_str h m s) = some (some h, some m, some s) := by
  have hH : matchNumGroup 'H'
      (natDigitList h ++ 'H' :: (natDigitList m ++ 'M' :: (natDigitList s ++ 'S' :: []))) =
      (some h, natDigitList m ++ 'M' :: (natDigitList s ++ 'S' :: [])) :=
    matchNumGroup_digits 'H' (by decide) h _
  have hM : matchNumGroup 'M'
      (natDigitList m ++ 'M' :: (natDigitList s ++ 'S' :: [])) =
      (some m, natDigitList s ++ 'S' :: []) :=
    matchNumGroup_digits 'M' (by decide) m _
  have hS : matchNumGroup 'S' (natDigitList s ++ 'S' :: []) = (some s, []) :=
    matchNumGroup_digits 'S' (by decide) s _
  have hlist : (mk_duration_str h m s).toList =
      'P' :: 'T' :: (natDigitList h ++ 'H' ::
        (natDigitList m ++ 'M' :: (natDigitList s ++ 'S' :: []))) :=
    mk_duration_str_data h m s
  simp only [re_match_duration, hlist, hH, hM, hS]

/-- C1: for a video whose age `d = (now - publishedAt)/86400` (in days)
satisfies `0 ≤ d ≤ TRENDING_PERIOD_DAYS` and whose view count `v` is
non-negative, `calculate_trending_score` returns exactly
`(v / max d 1) * (1 + v / 10000)`. -/
theorem calculate_trending_score_in_window (now : ℚ) (video : Video)
    (hv : 0 ≤ video.view_count)
    (h0 : 0 ≤ days_since_published now video)
    (h14 : days_since_published now video ≤ TRENDING_PERIOD_DAYS) :
    calculate_trending_score now video =
      ((video.view_count : ℚ) / max (days_since_published now video) 1) *
        (1 + (video.view_count : ℚ) / 10000) := by
  unfold calculate_trending_score
  rw [if_neg (not_lt.mpr h0), if_neg (not_lt.mpr h14)]
  simp only [clamped_days_eq_max]

/-- C1 witness: at age exactly 2 days with 100 views the theorem applies and
gives `(100 / max 2 1) * (1 + 100/10000)`. -/
theorem calculate_trending_score_in_window_witness :
    calculate_trending_score 172800 vidC1 =
      ((100 : ℚ) / max ((172800 - 0) / 86400 : ℚ) 1) * (1 + (100 : ℚ) / 10000) := by
  have h := calculate_trending_score_in_window 172800 vidC1 (by decide)
    (by norm_num [days_since_published, vidC1])
    (by norm_num [days_since_published, vidC1, TRENDING_PERIOD_DAYS])
  simpa [vidC1, days_since_published] using h

/-- C2: a video published in the future (`d < 0`) or more than
`TRENDING_PERIOD_DAYS` in the past (`d > 14`) scores exactly 0. -/
theorem calculate_trending_score_outside_window (now : ℚ) (video : Video)
    (h : days_since_published now video < 0 ∨
      TRENDING_PERIOD_DAYS < days_since_published now video) :
    calculate_trending_score now video = 0 := by
  unfold calculate_trending_score
  rcases h with h | h
  · rw [if_pos h]
  · rcases lt_or_le (days_since_published now video) 0 with h' | h'
    · rw [if_pos h']
    · rw [if_neg (not_lt.mpr h'), if_pos h]

/-- C2 witness: a future-dated video (age −1 day) scores 0 even with
5,000,000 views. -/
theorem calculate_trending_score_outside_window_witness :
    calculate_trending_score 0 vidC2 = 0 :=
  calculate_trending_score_outside_window 0 vidC2
    (Or.inl (by norm_num [days_since_published, vidC2]))

/-- C4: the 1-day floor is applied only to the divisor of the rate; both
short-circuit checks use the unclamped fractional age. A negative age is
never clamped into the window: the first conjunct returns 0 for every
`d < 0`, including `d = -0.5`. -/
theorem clamp_only_on_divisor (now : ℚ) (video : Video) :
    (days_since_published now video < 0 → calculate_trending_score now video = 0) ∧
    (TRENDING_PERIOD_DAYS < days_since_published now video →
      calculate_trending_score now video = 0) ∧
    (0 ≤ days_since_published now video →
      days_since_published now video ≤ TRENDING_PERIOD_DAYS →
      calculate_trending_score now video =
        ((video.view_count : ℚ) / max (days_since_published now video) 1) *
          (1 + (video.view_count : ℚ) / 10000)) := by
  refine ⟨fun h => ?_, fun h => ?_, fun h0 h14 => ?_⟩
  · unfold calculate_trending_score
    rw [if_pos h]
  · unfold calculate_trending_score
    rcases lt_or_le (days_since_published now video) 0 with h' | h'
    · rw [if_pos h']
    · rw [if_neg (not_lt.mpr h'), if_pos h]
  · unfold calculate_trending_score
    rw [if_neg (not_lt.mpr h0), if_neg (not_lt.mpr h14)]
    simp only [clamped_days_eq_max]

/-- C4 witness: a video with age exactly −0.5 days scores 0 (it is not
clamped to the 1-day floor, which would have given a positive score). -/
theorem clamp_only_on_divisor_witness :
    calculate_trending_score 0 vidC4 = 0 :=
  (clamp_only_on_divisor 0 vidC4).1 (by norm_num [days_since_published, vidC4])

/-- C7: with a non-negative view count the trending score is non-negative in
every branch. -/
theorem calculate_trending_score_nonneg (now : ℚ) (video : Video)
    (hv : 0 ≤ video.view_count) :
    0 ≤ calculate_trending_score now video := by
  have hv' : (0 : ℚ) ≤ (video.view_count : ℚ) := by exact_mod_cast hv
  simp only [calculate_trending_score]
  split_ifs with h1 h2 h3
  · exact le_refl 0
  · exact le_refl 0
  · exact mul_nonneg (div_nonneg hv' (by norm_num))
      (by positivity)
  · exact mul_nonneg (div_nonneg hv' (le_of_lt (lt_of_lt_of_le one_pos (le_of_not_lt h3) )))
      (by positivity)

/-- C7 witness: the future-dated sample video from C2 has non-negative
score. -/
theorem calculate_trending_score_nonneg_witness :
    0 ≤ calculate_trending_score 0 vidC1 :=
  calculate_trending_score_nonneg 0 vidC1 (by decide)

/-- C8: a video with 20000 views and age `0 ≤ d < 1` day (divisor clamped
to 1) scores exactly `20000 * (1 + 2) = 60000`. -/
theorem calculate_trending_score_20000 (now : ℚ) (video : Video)
    (hview : video.view_count = 20000)
    (h0 : 0 ≤ days_since_published now video)
    (h1 : days_since_published now video < 1) :
    calculate_trending_score now video = 60000 := by
  unfold calculate_trending_score
  rw [if_neg (not_lt.mpr h0),
    if_neg (not_lt.mpr (le_trans (le_of_lt h1) (by norm_num [TRENDING_PERIOD_DAYS]))),
    if_pos h1, hview]
  norm_num

/-- C8 witness: at age 0.5 days the 20000-view sample scores 60000. -/
theorem calculate_trending_score_20000_witness :
    calculate_trending_score 43200 vidC8 = 60000 :=
  calculate_trending_score_20000 43200 vidC8 (by decide)
    (by norm_num [days_since_published, vidC8])
    (by norm_num [days_since_published, vidC8])

/-- C3: the ranking never returns a record scoring below
`min_trending_score`, its output is ordered non-increasing by score, and
every input record whose score reaches the threshold appears (with its
score attached) in the output. -/
theorem find_trending_videos_rank_spec (now min_score : ℚ) (videos : List Video) :
    (∀ s ∈ find_trending_videos now videos min_score,
      min_score ≤ s.trending_score) ∧
    List.Sorted (fun a b => b.trending_score ≤ a.trending_score)
      (find_trending_videos now videos min_score) ∧
    (∀ v ∈ videos, min_score ≤ calculate_trending_score now v →
      (⟨v, calculate_trending_score now v⟩ : ScoredVideo) ∈
        find_trending_videos now videos min_score) := by
  have hperm : (find_trending_videos now videos min_score).Perm
      ((videos.map fun v => (⟨v, calculate_trending_score now v⟩ : ScoredVideo)).filter
        (fun s => decide (min_score ≤ s.trending_score))) :=
    List.perm_insertionSort _ _
  refine ⟨?_, ?_, ?_⟩
  · intro s hs
    have hmem := hperm.subset hs
    exact of_decide_eq_true (List.mem_filter.mp hmem).2
  · haveI hTot : IsTotal ScoredVideo (fun a b => b.trending_score ≤ a.trending_score) :=
      ⟨fun a b => le_total _ _⟩
    haveI hTrans : IsTrans ScoredVideo (fun a b => b.trending_score ≤ a.trending_score) :=
      ⟨fun a b c h1 h2 => le_trans h2 h1⟩
    exact List.sorted_insertionSort _ _
  · intro v hv hscore
    exact hperm.mem_iff.mpr
      (List.mem_filter.mpr ⟨List.mem_map_of_mem _ hv, decide_eq_true hscore⟩)

/-- C3 witness: with threshold 1000 the 60000-scoring sample record appears
in the ranked output. -/
theorem find_trending_videos_rank_spec_witness :
    (⟨vidC3, calculate_trending_score 43200 vidC3⟩ : ScoredVideo) ∈
      find_trending_videos 43200 [vidC3] 1000 :=
  (find_trending_videos_rank_spec 43200 1000 [vidC3]).2.2 vidC3
    (List.mem_singleton_self vidC3)
    (by norm_num [calculate_trending_score, days_since_published, vidC3,
      TRENDING_PERIOD_DAYS])

/-- C5: if the search call errors, or the batch-detail call issued with the
extracted ids errors, `search_videos` returns the empty list (the error is
caught, never propagated: the function is total). -/
theorem search_videos_error_empty (sr : QueryResult (List String))
    (vr : List String → QueryResult (List ApiVideoItem))
    (h : (∃ e, sr = QueryResult.err e) ∨
      (∃ ids e, sr = QueryResult.ok ids ∧ vr ids = QueryResult.err e)) :
    search_videos sr vr = [] := by
  rcases h with ⟨e, rfl⟩ | ⟨ids, e, rfl, hvr⟩
  · rfl
  · simp only [search_videos, search_videos_run]
    by_cases hids : ids.isEmpty
    · rw [if_pos hids]
    · rw [if_neg hids, hvr]

/-- C5 witness: a failing search call yields the empty list. -/
theorem search_videos_error_empty_witness :
    search_videos (QueryResult.err "HttpError 403")
      (fun _ => QueryResult.ok []) = [] :=
  search_videos_error_empty _ _ (Or.inl ⟨"HttpError 403", rfl⟩)

/-- C6: when the search response yields no video ids, `search_videos`
returns the empty list immediately and the batch-detail call is never
issued (second component `false`). -/
theorem search_videos_no_ids (vr : List String → QueryResult (List ApiVideoItem)) :
    search_videos (QueryResult.ok []) vr = [] ∧
    search_videos_run (QueryResult.ok []) vr = ([], false) :=
  ⟨rfl, rfl⟩

/-- C10: every record returned by the end-to-end `find_trending_videos` is
one of the records produced by `search_videos` on the same call, with the
trending score attached and every other field unchanged. -/
theorem find_trending_videos_full_frame (now min_score : ℚ)
    (sr : QueryResult (List String))
    (vr : List String → QueryResult (List ApiVideoItem))
    (s : ScoredVideo)
    (hs : s ∈ find_trending_videos_full now sr vr min_score) :
    ∃ v ∈ search_videos sr vr,
      s.trending_score = calculate_trending_score now v ∧
      s.video.video_id = v.video_id ∧ s.video.title = v.title ∧
      s.video.channel_title = v.channel_title ∧
      s.video.published_at = v.published_at ∧
      s.video.view_count = v.view_count ∧
      s.video.like_count = v.like_count ∧
      s.video.duration = v.duration ∧ s.video.url = v.url := by
  have hperm : (find_trending_videos_full now sr vr min_score).Perm
      (((search_videos sr vr).map
          fun v => (⟨v, calculate_trending_score now v⟩ : ScoredVideo)).filter
        (fun x => decide (min_score ≤ x.trending_score))) :=
    List.perm_insertionSort _ _
  have hmem := (List.mem_filter.mp (hperm.subset hs)).1
  rcases List.mem_map.mp hmem with ⟨v, hv, hveq⟩
  subst hveq
  exact ⟨v, hv, rfl, rfl, rfl, rfl, rfl, rfl, rfl, rfl, rfl⟩

/-- C10 witness: on a concrete two-stage response the single returned
record is the search record with its score attached. -/
theorem find_trending_videos_full_frame_witness :
    ∃ v ∈ search_videos (QueryResult.ok ["w"]) (fun _ => QueryResult.ok [itemC10]),
      (⟨mk_video_info itemC10,
          calculate_trending_score 43200 (mk_video_info itemC10)⟩ :
        ScoredVideo).trending_score = calculate_trending_score 43200 v ∧
      (mk_video_info itemC10).video_id = v.video_id ∧
      (mk_video_info itemC10).title = v.title ∧
      (mk_video_info itemC10).channel_title = v.channel_title ∧
      (mk_video_info itemC10).published_at = v.published_at ∧
      (mk_video_info itemC10).view_count = v.view_count ∧
      (mk_video_info itemC10).like_count = v.like_count ∧
      (mk_video_info itemC10).duration = v.duration ∧
      (mk_video_info itemC10).url = v.url :=
  find_trending_videos_full_frame 43200 1000 (QueryResult.ok ["w"])
    (fun _ => QueryResult.ok [itemC10])
    ⟨mk_video_info itemC10, calculate_trending_score 43200 (mk_video_info itemC10)⟩
    (by
      have hscore : calculate_trending_score 43200 (mk_video_info itemC10) = 60000 := by
        norm_num [calculate_trending_score, days_since_published, mk_video_info,
          itemC10, TRENDING_PERIOD_DAYS]
      simp [find_trending_videos_full, find_trending_videos, search_videos,
        search_videos_run, hscore, List.insertionSort, List.orderedInsert])

/-- C9: `format_duration` maps an hours/minutes/seconds duration string to
the concatenation of its non-zero components (in particular `PT1H2M10S` to
`1時間2分10秒`), renders an all-zero duration such as `PT0S` as the
explicit marker `0秒` rather than the empty string, and returns any string
the duration pattern does not match unchanged. -/
theorem format_duration_spec :
    (∀ h m s : ℕ,
      format_duration (mk_duration_str h m s) =
        if h = 0 ∧ m = 0 ∧ s = 0 then "0秒"
        else (if 0 < h then Nat.repr h ++ "時間" else "") ++
          (if 0 < m then Nat.repr m ++ "分" else "") ++
          (if 0 < s then Nat.repr s ++ "秒" else "")) ∧
    format_duration "PT1H2M10S" = "1時間2分10秒" ∧
    format_duration "PT0S" = "0秒" ∧
    (∀ s : String, re_match_duration s = none → format_duration s = s) := by
  refine ⟨?_, by decide, by decide, ?_⟩
  · intro h m s
    simp only [format_duration, re_match_duration_mk, Option.getD_some]
    by_cases hh : h = 0 <;> by_cases hm : m = 0 <;> by_cases hs : s = 0
    · simp [hh, hm, hs]
    · simp [hh, hm, hs, Nat.pos_of_ne_zero, String.join]
    · simp [hh, hm, hs, Nat.pos_of_ne_zero, String.join]
    · simp [hh, hm, hs, Nat.pos_of_ne_zero, String.join]
    · simp [hh, hm, hs, Nat.pos_of_ne_zero, String.join]
    · simp [hh, hm, hs, Nat.pos_of_ne_zero, String.join]
    · simp [hh, hm, hs, Nat.pos_of_ne_zero, String.join]
    · simp [hh, hm, hs, Nat.pos_of_ne_zero, String.join]
  · intro s hnone
    simp [format_duration, hnone]

/-- C9 witness: the all-zero canonical string renders as `0秒`, and a
string not matching the pattern (no `PT` head) passes through unchanged. -/
theorem format_duration_spec_witness :
    format_duration (mk_duration_str 0 0 0) = "0秒" ∧
    format_duration "12:34" = "12:34" := by
  constructor
  · rw [format_duration_spec.1 0 0 0]
    simp
  · exact format_duration_spec.2.2.2 "12:34" rfl

/-- C6 witness: with a search response carrying no ids and a detail oracle
that would fail if consulted, the result is empty and no detail call was
issued. -/
theorem search_videos_no_ids_witness :
    search_videos (QueryResult.ok []) (fun _ => QueryResult.err "boom") = [] ∧
    search_videos_run (QueryResult.ok []) (fun _ => QueryResult.err "boom") =
      ([], false) :=
  search_videos_no_ids (fun _ => QueryResult.err "boom")
